import Mathlib

/-!
# SoleCast material-requisition subsystem: shallow embedding and verification

This file embeds the data model and operations of the SoleCast
inventory/production-planning application (the BOM costing engine in
`employee_dashboard.py`, the request lifecycle and stock functions in
`database.py`, and the consumption report in `admin_dashboard.py`) as
executable Lean definitions, and proves the specified properties about them.

Modelling conventions:
* SQLite tables become Lean lists of row structures; `INTEGER` columns are
  `Int`, `REAL` columns are `ℚ` (the arithmetic the code performs is exact on
  the rationals), `TEXT` columns are `String`.
* `AUTOINCREMENT` ids are modelled by a counter carried in the database state.
* A write operation returns the new database state paired with an
  `Except String` result; SQLite transaction semantics (commit / rollback)
  become: on success the returned state carries the whole change, on failure
  the returned state is the input state unchanged.  An injected-failure flag
  models a storage exception raised inside an explicit transaction block,
  exercising the rollback path of the source.
-/

/-- Row of the `materials` table (`database.py`, `init_db`). -/
structure Material where
  material_id : Nat
  name : String
  stock : Int
  price : ℚ
  product_association : String
  unit_of_measure : String
deriving DecidableEq, Repr

/-- Row of the `bom` table (`database.py`, `init_db`); `product_id` stores the
product name, `material_id` is a foreign key into `materials` with
`ON DELETE RESTRICT`. -/
structure BomRow where
  bom_id : Nat
  product_id : String
  material_id : Nat
  quantity_per_unit : Int
deriving DecidableEq, Repr

/-- Row of the `material_requests` header table (`database.py`, `init_db`). -/
structure RequestRow where
  request_id : Nat
  employee_id : Nat
  employee_name : String
  product_name : String
  production_quantity : Int
  total_cost : ℚ
  status : String
  request_date : String
deriving DecidableEq, Repr

/-- Row of the `request_line_items` table (`database.py`, `init_db`). -/
structure LineItemRow where
  request_id : Nat
  material_name : String
  quantity_needed : Int
  unit_of_measure : String
  cost : ℚ
deriving DecidableEq, Repr

/-- Row of the `sales_history` table (`database.py`, `init_db`). -/
structure SalesRow where
  product_name : String
  year : Int
  month : Int
  quantity : Int
  is_historical_csv : Bool
deriving DecidableEq, Repr

/-- The persistent store: the tables touched by the requisition subsystem,
plus the autoincrement counter for `material_requests.request_id`. -/
structure DB where
  materials : List Material
  bom : List BomRow
  requests : List RequestRow
  line_items : List LineItemRow
  sales : List SalesRow
  nextRequestId : Nat
deriving DecidableEq, Repr

/-- One row of the query in `get_bom_for_product` (`database.py`): the join
of `bom` with `materials` on `material_id`, filtered by `product_id`,
projecting name, quantity per unit, stock, price and unit. -/
structure BomItem where
  name : String
  quantity_per_unit : Int
  stock : Int
  price : ℚ
  unit_of_measure : String
deriving DecidableEq, Repr

/-- `get_bom_for_product` (`database.py`): all BOM rows of `product_name`
joined with the referenced material (`material_id` is the primary key of
`materials`, so the join finds at most one row per BOM row). -/
def get_bom_for_product (db : DB) (product_name : String) : List BomItem :=
  (db.bom.filter (fun b => b.product_id == product_name)).filterMap
    (fun b =>
      (db.materials.find? (fun m => m.material_id == b.material_id)).map
        (fun m =>
          { name := m.name
            quantity_per_unit := b.quantity_per_unit
            stock := m.stock
            price := m.price
            unit_of_measure := m.unit_of_measure }))

/-- One row of the cost-breakdown table built by `calculate_material_cost`
(`employee_dashboard.py`), which is also the line-item cache handed to
submission. -/
structure CostLine where
  material_name : String
  total_required : Int
  need_to_order : Int
  unit_of_measure : String
  cost : ℚ
deriving DecidableEq, Repr

/-- `calculate_material_cost` (`employee_dashboard.py`): for the selected
product and quantity, fetch the BOM; if it is empty report the error
("No Bill of Materials (BOM) is defined"), otherwise loop over the BOM rows
accumulating one cost line per row and the running `total_cost`. -/
def calculate_material_cost (db : DB) (product_name : String)
    (quantity_to_produce : Int) : Option (List CostLine × ℚ) :=
  let bom_items := get_bom_for_product db product_name
  if bom_items.isEmpty then
    none
  else
    some (bom_items.foldl
      (fun acc item =>
        let total_required := quantity_to_produce * item.quantity_per_unit
        let need_to_order := max 0 (total_required - item.stock)
        let cost := (need_to_order : ℚ) * item.price
        (acc.1 ++ [{ material_name := item.name
                     total_required := total_required
                     need_to_order := need_to_order
                     unit_of_measure := item.unit_of_measure
                     cost := cost }], acc.2 + cost))
      ([], 0))

/-- The cost line `calculate_material_cost` produces for one BOM row. -/
def costLineOf (quantity_to_produce : Int) (item : BomItem) : CostLine :=
  let total_required := quantity_to_produce * item.quantity_per_unit
  let need_to_order := max 0 (total_required - item.stock)
  { material_name := item.name
    total_required := total_required
    need_to_order := need_to_order
    unit_of_measure := item.unit_of_measure
    cost := (need_to_order : ℚ) * item.price }

lemma calculate_foldl_eq (quantity_to_produce : Int) :
    ∀ (bom_items : List BomItem) (acc : List CostLine × ℚ),
      bom_items.foldl
        (fun acc item =>
          let total_required := quantity_to_produce * item.quantity_per_unit
          let need_to_order := max 0 (total_required - item.stock)
          let cost := (need_to_order : ℚ) * item.price
          (acc.1 ++ [{ material_name := item.name
                       total_required := total_required
                       need_to_order := need_to_order
                       unit_of_measure := item.unit_of_measure
                       cost := cost }], acc.2 + cost))
        acc
      = (acc.1 ++ bom_items.map (costLineOf quantity_to_produce),
         acc.2 + ((bom_items.map (costLineOf quantity_to_produce)).map
                    (fun l => l.cost)).sum) := by
  intro bom_items
  induction bom_items with
  | nil => intro acc; simp
  | cons hd tl ih =>
      intro acc
      simp only [List.foldl_cons, List.map_cons, List.sum_cons]
      rw [ih]
      simp [costLineOf, add_assoc]

/-- C1: For every product with at least one BOM entry and every positive
`quantity_to_produce`, the costing computation produces one line per BOM
entry (never dropping an entry), with
`total_required = quantity_to_produce * quantity_per_unit`,
`need_to_order = max 0 (total_required - current_stock)`,
`line_cost = need_to_order * unit_price`, and an aggregate `total_cost`
equal to the sum of the line costs; a material whose stock already covers
`total_required` still appears, with zero shortfall and zero cost. -/
theorem calculate_material_cost_correct (db : DB) (product_name : String)
    (quantity_to_produce : Int)
    (hbom : get_bom_for_product db product_name ≠ [])
    (hqty : 0 < quantity_to_produce) :
    ∃ lines total_cost,
      calculate_material_cost db product_name quantity_to_produce
        = some (lines, total_cost)
      ∧ lines = (get_bom_for_product db product_name).map
          (costLineOf quantity_to_produce)
      ∧ lines.length = (get_bom_for_product db product_name).length
      ∧ (∀ item ∈ get_bom_for_product db product_name,
          costLineOf quantity_to_produce item ∈ lines
          ∧ (costLineOf quantity_to_produce item).total_required
              = quantity_to_produce * item.quantity_per_unit
          ∧ (costLineOf quantity_to_produce item).need_to_order
              = max 0 (quantity_to_produce * item.quantity_per_unit
                        - item.stock)
          ∧ (costLineOf quantity_to_produce item).cost
              = ((costLineOf quantity_to_produce item).need_to_order : ℚ)
                  * item.price)
      ∧ total_cost = (lines.map (fun l => l.cost)).sum
      ∧ (∀ item ∈ get_bom_for_product db product_name,
          quantity_to_produce * item.quantity_per_unit ≤ item.stock →
          ∃ l ∈ lines, l.material_name = item.name
            ∧ l.need_to_order = 0 ∧ l.cost = 0) := by
  refine ⟨(get_bom_for_product db product_name).map
      (costLineOf quantity_to_produce),
    (((get_bom_for_product db product_name).map
        (costLineOf quantity_to_produce)).map (fun l => l.cost)).sum,
    ?_, rfl, by simp, ?_, rfl, ?_⟩
  · unfold calculate_material_cost
    rw [if_neg (by simpa [List.isEmpty_iff] using hbom)]
    rw [calculate_foldl_eq]
    simp
  · intro item hitem
    exact ⟨List.mem_map_of_mem _ hitem, rfl, rfl, rfl⟩
  · intro item hitem hcover
    refine ⟨costLineOf quantity_to_produce item,
      List.mem_map_of_mem _ hitem, rfl, ?_, ?_⟩
    · simp [costLineOf]
      omega
    · simp [costLineOf]
      exact Or.inl (by exact_mod_cast hcover)

/-- Line-item dictionary handed from `calculate_material_cost` to
`submit_material_request`: keys `material_name`, `quantity_needed`,
`unit_of_measure` (read with `.get(..., "pcs")`, hence optional) and
`cost`. -/
structure LineItemInput where
  material_name : String
  quantity_needed : Int
  unit_of_measure : Option String
  cost : ℚ
deriving DecidableEq, Repr

/-- `submit_material_request` (`database.py`): inside one transaction, insert
the header row with status `"Pending"` and the current timestamp, collect the
supplied line items having `quantity_needed > 0`, insert those under the new
`request_id`, and commit, returning the id; any exception rolls the whole
transaction back and re-raises.  `fail` injects a storage exception inside
the transaction; `now` is `datetime.now().isoformat()`. -/
def submit_material_request (fail : Bool) (db : DB) (employee_id : Nat)
    (employee_name product_name : String) (production_quantity : Int)
    (total_cost : ℚ) (line_items : List LineItemInput) (now : String) :
    DB × Except String Nat :=
  if fail then
    (db, Except.error "StorageError")
  else
    let request_id := db.nextRequestId
    let header : RequestRow :=
      { request_id := request_id
        employee_id := employee_id
        employee_name := employee_name
        product_name := product_name
        production_quantity := production_quantity
        total_cost := total_cost
        status := "Pending"
        request_date := now }
    let items_to_insert : List LineItemRow :=
      (line_items.filter (fun item => decide (item.quantity_needed > 0))).map
        (fun item =>
          { request_id := request_id
            material_name := item.material_name
            quantity_needed := item.quantity_needed
            unit_of_measure := item.unit_of_measure.getD "pcs"
            cost := item.cost })
    ({ db with
        requests := db.requests ++ [header]
        line_items := db.line_items ++ items_to_insert
        nextRequestId := db.nextRequestId + 1 },
      Except.ok request_id)

/-- `get_request_line_items` (`database.py`): the rows of
`request_line_items` belonging to one request. -/
def get_request_line_items (db : DB) (request_id : Nat) : List LineItemRow :=
  db.line_items.filter (fun li => li.request_id == request_id)

/-- The stock-update loop of `receive_material_request_stock`: for each line
item in order, run `UPDATE materials SET stock = stock + ? WHERE name = ?`
(which touches every material row whose `name` equals the item's
`material_name`; `name` is unique, so at most one). -/
def applyLineItems : List LineItemRow → List Material → List Material
  | [], mats => mats
  | item :: rest, mats =>
      applyLineItems rest
        (mats.map (fun m =>
          if m.name == item.material_name then
            { m with stock := m.stock + item.quantity_needed }
          else m))

/-- `receive_material_request_stock` (`database.py`): fetch the line items of
the request; if there are none, raise ("No line items found for this
request.") and roll back; otherwise add each `quantity_needed` to the stock
of the material of the same name, set the request status to `"Completed"`,
and commit — all in one transaction.  The current status is never read. -/
def receive_material_request_stock (db : DB) (request_id : Nat) :
    DB × Except String Unit :=
  let line_items := get_request_line_items db request_id
  if line_items.isEmpty then
    (db, Except.error "No line items found for this request.")
  else
    ({ db with
        materials := applyLineItems line_items db.materials
        requests := db.requests.map (fun r =>
          if r.request_id == request_id then { r with status := "Completed" }
          else r) },
      Except.ok ())

/-- `update_request_status` (`database.py`): a single unconditional
`UPDATE material_requests SET status = ? WHERE request_id = ?` followed by a
commit; the current status is never consulted and `new_status` is never
validated. -/
def update_request_status (db : DB) (request_id : Nat) (new_status : String) :
    DB :=
  { db with
      requests := db.requests.map (fun r =>
        if r.request_id == request_id then { r with status := new_status }
        else r) }

/-- `delete_material` (`database.py`): with `PRAGMA foreign_keys = ON`,
`DELETE FROM materials WHERE material_id = ?`; the `ON DELETE RESTRICT`
foreign key from `bom.material_id` makes the delete raise an
`IntegrityError` (re-raised to the caller, nothing committed) exactly when
the deleted row is still referenced by some BOM row. -/
def delete_material (db : DB) (material_id : Nat) : DB × Except String Unit :=
  if (db.materials.any (fun m => m.material_id == material_id))
      && (db.bom.any (fun b => b.material_id == material_id)) then
    (db, Except.error "FOREIGN KEY constraint failed")
  else
    ({ db with
        materials := db.materials.filter
          (fun m => !(m.material_id == material_id)) },
      Except.ok ())

/-- The freshly parsed CSV records flagged `is_historical_csv = 1`
(`final_sales` in `import_sales_from_csv`, `database.py`): the parsed CSV
content (product, year, month, quantity) after the pandas melt/clean/group
steps. -/
def histRowsOf (recs : List (String × Int × Int × Int)) : List SalesRow :=
  recs.map (fun r =>
    { product_name := r.1
      year := r.2.1
      month := r.2.2.1
      quantity := r.2.2.2
      is_historical_csv := true })

/-- The database transaction of `import_sales_from_csv` (`database.py`):
delete every `sales_history` row with `is_historical_csv = 1`, append the
freshly parsed records flagged `is_historical_csv = 1`, and commit; on any
exception roll back and re-raise; `fail` injects a storage exception inside
the transaction. -/
def importSalesTransaction (fail : Bool) (db : DB)
    (recs : List (String × Int × Int × Int)) : DB × Except String Unit :=
  if fail then
    (db, Except.error "StorageError")
  else
    ({ db with
        sales := db.sales.filter (fun s => !s.is_historical_csv)
          ++ histRowsOf recs },
      Except.ok ())

/-! ### Concrete stores used by the witnesses

The end-to-end scenario of the specification: material `"Leather"` with
stock 10, price 5, and a BOM row giving product `"Shoe-A"` two units of
leather per pair. -/

/-- Witness material: `"Leather"`, stock 10, price 5. -/
def matLeather : Material :=
  { material_id := 1
    name := "Leather"
    stock := 10
    price := 5
    product_association := "Shoe-A"
    unit_of_measure := "pcs" }

/-- Witness store: one material, one BOM row, no requests yet. -/
def dbShoe : DB :=
  { materials := [matLeather]
    bom := [{ bom_id := 1
              product_id := "Shoe-A"
              material_id := 1
              quantity_per_unit := 2 }]
    requests := []
    line_items := []
    sales := []
    nextRequestId := 1 }

/-- Witness for C1: on the `"Shoe-A"` store, producing 8 pairs needs 16
leather, 6 must be ordered, at cost 30. -/
theorem calculate_material_cost_correct_witness :
    get_bom_for_product dbShoe "Shoe-A" ≠ []
    ∧ (0 : Int) < 8
    ∧ ∃ lines total_cost,
        calculate_material_cost dbShoe "Shoe-A" 8 = some (lines, total_cost)
        ∧ lines = [{ material_name := "Leather"
                     total_required := 16
                     need_to_order := 6
                     unit_of_measure := "pcs"
                     cost := 30 }]
        ∧ total_cost = 30 := by
  have hb : get_bom_for_product dbShoe "Shoe-A"
      = [{ name := "Leather", quantity_per_unit := 2, stock := 10,
           price := 5, unit_of_measure := "pcs" }] := by rfl
  have h := calculate_material_cost_correct dbShoe "Shoe-A" 8
    (by rw [hb]; simp) (by decide)
  obtain ⟨lines, total_cost, heq, hlines, -, -, htot, -⟩ := h
  have hlines2 : lines = [{ material_name := "Leather"
                            total_required := 16
                            need_to_order := 6
                            unit_of_measure := "pcs"
                            cost := 30 }] := by
    rw [hlines, hb]
    simp [costLineOf]
    norm_num
  refine ⟨by rw [hb]; simp, by decide, lines, total_cost, heq, hlines2, ?_⟩
  rw [htot, hlines2]
  norm_num

/-- C2: `submit_material_request` persists, in one atomic unit, exactly one
header row under the fresh id — with status `"Pending"` and the creation
timestamp — plus exactly the supplied line items whose `quantity_needed` is
positive (N positive-shortfall inputs yield N stored rows, zero-shortfall
inputs are excluded); a failure inside the transaction rolls everything
back, leaving the store unchanged and surfacing the error. -/
theorem submit_material_request_atomic (db : DB) (employee_id : Nat)
    (employee_name product_name : String) (production_quantity : Int)
    (total_cost : ℚ) (line_items : List LineItemInput) (now : String)
    (hfreshR : ∀ r ∈ db.requests, r.request_id ≠ db.nextRequestId)
    (hfreshL : ∀ li ∈ db.line_items, li.request_id ≠ db.nextRequestId) :
    (submit_material_request false db employee_id employee_name product_name
        production_quantity total_cost line_items now).2
      = Except.ok db.nextRequestId
    ∧ ((submit_material_request false db employee_id employee_name
          product_name production_quantity total_cost line_items
          now).1.requests.filter
        (fun r => r.request_id == db.nextRequestId)).length = 1
    ∧ (∀ r ∈ (submit_material_request false db employee_id employee_name
          product_name production_quantity total_cost line_items
          now).1.requests,
        r.request_id = db.nextRequestId →
          r.status = "Pending" ∧ r.request_date = now)
    ∧ ((submit_material_request false db employee_id employee_name
          product_name production_quantity total_cost line_items
          now).1.line_items.filter
            (fun li => li.request_id == db.nextRequestId)).map
          (fun li => (li.material_name, li.quantity_needed, li.cost))
        = (line_items.filter
            (fun item => decide (item.quantity_needed > 0))).map
            (fun item => (item.material_name, item.quantity_needed, item.cost))
    ∧ ((submit_material_request false db employee_id employee_name
          product_name production_quantity total_cost line_items
          now).1.line_items.filter
            (fun li => li.request_id == db.nextRequestId)).length
        = (line_items.filter
            (fun item => decide (item.quantity_needed > 0))).length
    ∧ submit_material_request true db employee_id employee_name product_name
        production_quantity total_cost line_items now
        = (db, Except.error "StorageError") := by
  have hfR : db.requests.filter (fun r => r.request_id == db.nextRequestId)
      = [] := by
    refine List.filter_eq_nil_iff.mpr ?_
    intro r hr
    simpa using hfreshR r hr
  have hfL : db.line_items.filter
      (fun li => li.request_id == db.nextRequestId) = [] := by
    refine List.filter_eq_nil_iff.mpr ?_
    intro li hli
    simpa using hfreshL li hli
  have hins : ((line_items.filter
        (fun item => decide (item.quantity_needed > 0))).map
        (fun item => ({ request_id := db.nextRequestId
                        material_name := item.material_name
                        quantity_needed := item.quantity_needed
                        unit_of_measure := item.unit_of_measure.getD "pcs"
                        cost := item.cost } : LineItemRow))).filter
      (fun li => li.request_id == db.nextRequestId)
      = (line_items.filter
          (fun item => decide (item.quantity_needed > 0))).map
          (fun item => ({ request_id := db.nextRequestId
                          material_name := item.material_name
                          quantity_needed := item.quantity_needed
                          unit_of_measure := item.unit_of_measure.getD "pcs"
                          cost := item.cost } : LineItemRow)) := by
    refine List.filter_eq_self.mpr ?_
    intro li hli
    simp only [List.mem_map] at hli
    obtain ⟨item, -, rfl⟩ := hli
    simp
  have hsub : submit_material_request false db employee_id employee_name
      product_name production_quantity total_cost line_items now
      = ({ db with
            requests := db.requests ++
              [{ request_id := db.nextRequestId
                 employee_id := employee_id
                 employee_name := employee_name
                 product_name := product_name
                 production_quantity := production_quantity
                 total_cost := total_cost
                 status := "Pending"
                 request_date := now }]
            line_items := db.line_items ++
              (line_items.filter
                (fun item => decide (item.quantity_needed > 0))).map
                (fun item => ({ request_id := db.nextRequestId
                                material_name := item.material_name
                                quantity_needed := item.quantity_needed
                                unit_of_measure :=
                                  item.unit_of_measure.getD "pcs"
                                cost := item.cost } : LineItemRow))
            nextRequestId := db.nextRequestId + 1 },
          Except.ok db.nextRequestId) := rfl
  refine ⟨by rw [hsub], ?_, ?_, ?_, ?_, rfl⟩
  · rw [hsub]
    simp only [List.filter_append, hfR, List.nil_append]
    simp
  · intro r hr hrid
    rw [hsub] at hr
    simp only [List.mem_append, List.mem_singleton] at hr
    rcases hr with hr | rfl
    · exact absurd hrid (hfreshR r hr)
    · exact ⟨rfl, rfl⟩
  · rw [hsub]
    simp only [List.filter_append, hfL, hins, List.nil_append, List.map_map]
    rfl
  · rw [hsub]
    simp only [List.filter_append, hfL, hins, List.nil_append,
      List.length_map]

/-- Witness for C2: on the `"Shoe-A"` store, submitting the computed
breakdown (one positive-shortfall item, `Leather` 6 at cost 30) stores one
`"Pending"` header and exactly one line item; the injected failure leaves
the store untouched. -/
theorem submit_material_request_atomic_witness :
    (∀ r ∈ dbShoe.requests, r.request_id ≠ dbShoe.nextRequestId)
    ∧ (∀ li ∈ dbShoe.line_items, li.request_id ≠ dbShoe.nextRequestId)
    ∧ ((submit_material_request false dbShoe 2 "employee" "Shoe-A" 8 30
          [{ material_name := "Leather", quantity_needed := 6,
             unit_of_measure := some "pcs", cost := 30 }]
          "2025-01-01T00:00:00").1.line_items.filter
            (fun li => li.request_id == dbShoe.nextRequestId)).length = 1
    ∧ submit_material_request true dbShoe 2 "employee" "Shoe-A" 8 30
          [{ material_name := "Leather", quantity_needed := 6,
             unit_of_measure := some "pcs", cost := 30 }]
          "2025-01-01T00:00:00"
        = (dbShoe, Except.error "StorageError") := by
  have h := submit_material_request_atomic dbShoe 2 "employee" "Shoe-A" 8 30
    [{ material_name := "Leather", quantity_needed := 6,
       unit_of_measure := some "pcs", cost := 30 }]
    "2025-01-01T00:00:00" (by simp [dbShoe]) (by simp [dbShoe])
  obtain ⟨-, -, -, -, hlen, hfail⟩ := h
  refine ⟨by simp [dbShoe], by simp [dbShoe], ?_, hfail⟩
  rw [hlen]
  decide

/-- Running the stock-update loop adds to every material, in one pass, the
sum of the `quantity_needed` of exactly the line items whose
`material_name` equals that material's name; materials named by no line
item keep their stock. -/
lemma applyLineItems_eq (items : List LineItemRow) :
    ∀ mats : List Material,
      applyLineItems items mats = mats.map (fun m =>
        { m with stock := m.stock +
            ((items.filter (fun li => li.material_name == m.name)).map
              (fun li => li.quantity_needed)).sum }) := by
  induction items with
  | nil =>
      intro mats
      have h : ∀ m : Material,
          ({ m with stock := m.stock +
              ((([] : List LineItemRow).filter
                  (fun li => li.material_name == m.name)).map
                (fun li => li.quantity_needed)).sum } : Material) = m := by
        intro m; cases m; simp
      rw [applyLineItems, List.map_congr_left (fun a _ => h a)]
      simp
  | cons hd tl ih =>
      intro mats
      rw [applyLineItems, ih, List.map_map]
      refine List.map_congr_left ?_
      intro m _
      by_cases h : m.name == hd.material_name
      · have hname : hd.material_name == m.name := by
          simp only [beq_iff_eq] at h ⊢
          exact h.symm
        simp only [Function.comp_apply, if_pos h, List.filter_cons,
          hname, List.map_cons, List.sum_cons]
        cases m
        simp
        ring
      · have hname : ¬(hd.material_name == m.name) := by
          simp only [beq_iff_eq] at h ⊢
          exact fun e => h e.symm
        simp only [Function.comp_apply, if_neg h, List.filter_cons,
          List.map_cons]
        rw [if_neg hname]

/-- On a request whose line-item list is non-empty, the stock receipt
commits the looped stock updates together with the status change. -/
lemma receive_success_eq (db : DB) (request_id : Nat)
    (h : get_request_line_items db request_id ≠ []) :
    receive_material_request_stock db request_id
      = ({ db with
            materials := applyLineItems
              (get_request_line_items db request_id) db.materials
            requests := db.requests.map (fun r =>
              if r.request_id == request_id then
                { r with status := "Completed" }
              else r) },
          Except.ok ()) := by
  unfold receive_material_request_stock
  rw [if_neg (by simpa [List.isEmpty_iff] using h)]

/-- C3: for every existing request with at least one line item,
`receive_material_request_stock` adds to each material's stock the
`quantity_needed` of exactly its matching line items (matched by material
name), sets the request's status to `"Completed"`, and commits both in one
unit; with no line items it fails with the "No line items" error and the
store is left completely unchanged. -/
theorem receive_material_request_stock_correct (db : DB) (request_id : Nat)
    (hex : ∃ r ∈ db.requests, r.request_id = request_id) :
    (get_request_line_items db request_id ≠ [] →
      receive_material_request_stock db request_id
        = ({ db with
              materials := db.materials.map (fun m =>
                { m with stock := m.stock +
                    (((get_request_line_items db request_id).filter
                        (fun li => li.material_name == m.name)).map
                      (fun li => li.quantity_needed)).sum })
              requests := db.requests.map (fun r =>
                if r.request_id == request_id then
                  { r with status := "Completed" }
                else r) },
            Except.ok ()))
    ∧ (get_request_line_items db request_id = [] →
        receive_material_request_stock db request_id
          = (db, Except.error "No line items found for this request.")) := by
  constructor
  · intro hne
    unfold receive_material_request_stock
    rw [if_neg (by simpa [List.isEmpty_iff] using hne)]
    rw [applyLineItems_eq]
  · intro hnil
    unfold receive_material_request_stock
    rw [if_pos (by simpa [List.isEmpty_iff] using hnil)]

/-- Concrete store for the stock-reconciliation witnesses: materials `"A"`
(stock 10) and `"B"` (stock 20), and an approved request `1` with line
items `(A, 5)` and `(B, 3)`. -/
def dbRecv : DB :=
  { materials :=
      [{ material_id := 1, name := "A", stock := 10, price := 2,
         product_association := "P", unit_of_measure := "pcs" },
       { material_id := 2, name := "B", stock := 20, price := 3,
         product_association := "P", unit_of_measure := "pcs" }]
    bom := []
    requests :=
      [{ request_id := 1, employee_id := 2, employee_name := "employee",
         product_name := "P", production_quantity := 4, total_cost := 19,
         status := "Approved", request_date := "2025-01-01T00:00:00" }]
    line_items :=
      [{ request_id := 1, material_name := "A", quantity_needed := 5,
         unit_of_measure := "pcs", cost := 10 },
       { request_id := 1, material_name := "B", quantity_needed := 3,
         unit_of_measure := "pcs", cost := 9 }]
    sales := []
    nextRequestId := 2 }

/-- Witness for C3: receiving request 1 of `dbRecv` raises stock of `"A"`
by exactly 5 and of `"B"` by exactly 3 and completes the request; on a
request with no line items (id 7) the store is unchanged and the error is
surfaced. -/
theorem receive_material_request_stock_correct_witness :
    (∃ r ∈ dbRecv.requests, r.request_id = 1)
    ∧ get_request_line_items dbRecv 1 ≠ []
    ∧ ((receive_material_request_stock dbRecv 1).1.materials.map
        (fun m => (m.name, m.stock)) = [("A", 15), ("B", 23)])
    ∧ ((receive_material_request_stock dbRecv 1).1.requests.map
        (fun r => r.status) = ["Completed"])
    ∧ (receive_material_request_stock dbRecv 1).2 = Except.ok ()
    ∧ receive_material_request_stock { dbRecv with line_items := [] } 1
        = ({ dbRecv with line_items := [] },
           Except.error "No line items found for this request.") := by
  have h := receive_material_request_stock_correct dbRecv 1
    ⟨dbRecv.requests.head (by decide), by decide⟩
  have h2 := receive_material_request_stock_correct
    { dbRecv with line_items := [] } 1
    ⟨({ dbRecv with line_items := [] } : DB).requests.head (by decide),
     by decide⟩
  refine ⟨⟨dbRecv.requests.head (by decide), by decide⟩, by decide,
    ?_, ?_, ?_, h2.2 (by decide)⟩
  · rw [h.1 (by decide)]; decide
  · rw [h.1 (by decide)]; decide
  · rw [h.1 (by decide)]

/-- A store holding a single already-completed request, used to exhibit the
permissive status update. -/
def dbCompleted : DB :=
  { materials := []
    bom := []
    requests :=
      [{ request_id := 1, employee_id := 2, employee_name := "employee",
         product_name := "P", production_quantity := 4, total_cost := 19,
         status := "Completed", request_date := "2025-01-01T00:00:00" }]
    line_items := []
    sales := []
    nextRequestId := 2 }

/-- Counterexample to C4: request 1 of `dbCompleted` is not `"Pending"`
(it is `"Completed"`), yet `update_request_status` performs the transition
to `"Approved"` instead of rejecting it, and even a status outside
{Approved, Rejected} such as `"Garbage"` is written. -/
theorem update_request_status_counterexample :
    dbCompleted.requests.map (fun r => r.status) = ["Completed"]
    ∧ (update_request_status dbCompleted 1 "Approved").requests.map
        (fun r => r.status) = ["Approved"]
    ∧ (update_request_status dbCompleted 1 "Garbage").requests.map
        (fun r => r.status) = ["Garbage"] := by
  decide

/-- C4 as amended: `update_request_status` is an unconditional overwrite —
whatever the current status and whatever the `new_status` string, every
request row with the given id gets `new_status`, every other row and every
other table is untouched; no transition validation is performed. -/
theorem update_request_status_overwrites (db : DB) (request_id : Nat)
    (new_status : String) :
    (update_request_status db request_id new_status).requests
      = db.requests.map (fun r =>
          if r.request_id == request_id then { r with status := new_status }
          else r)
    ∧ (∀ r ∈ db.requests, r.request_id = request_id →
        ({ r with status := new_status } : RequestRow)
          ∈ (update_request_status db request_id new_status).requests)
    ∧ (∀ r ∈ db.requests, r.request_id ≠ request_id →
        r ∈ (update_request_status db request_id new_status).requests)
    ∧ (update_request_status db request_id new_status).materials
        = db.materials
    ∧ (update_request_status db request_id new_status).line_items
        = db.line_items := by
  refine ⟨rfl, ?_, ?_, rfl, rfl⟩
  · intro r hr hrid
    have : ({ r with status := new_status } : RequestRow)
        = (fun r : RequestRow =>
            if r.request_id == request_id then
              { r with status := new_status }
            else r) r := by
      simp [hrid]
    rw [this]
    exact List.mem_map_of_mem _ hr
  · intro r hr hrid
    have : r = (fun r : RequestRow =>
        if r.request_id == request_id then { r with status := new_status }
        else r) r := by
      simp [hrid]
    have hmem := List.mem_map_of_mem
      (fun r : RequestRow =>
        if r.request_id == request_id then { r with status := new_status }
        else r) hr
    rw [← this] at hmem
    exact hmem

/-- Witness for the amended C4: on `dbCompleted`, overwriting the completed
request 1 with `"Approved"` indeed stores the approved row. -/
theorem update_request_status_overwrites_witness :
    ({ request_id := 1, employee_id := 2, employee_name := "employee",
       product_name := "P", production_quantity := 4, total_cost := 19,
       status := "Approved",
       request_date := "2025-01-01T00:00:00" } : RequestRow)
      ∈ (update_request_status dbCompleted 1 "Approved").requests := by
  have h := update_request_status_overwrites dbCompleted 1 "Approved"
  exact h.2.1
    { request_id := 1, employee_id := 2, employee_name := "employee",
      product_name := "P", production_quantity := 4, total_cost := 19,
      status := "Completed", request_date := "2025-01-01T00:00:00" }
    (by decide) rfl

/-- C5: stock receipt matches materials by name, not by a stable id — if a
line item's `material_name` matches no material row (e.g. after a rename
between request creation and fulfillment), the operation still commits
without error, the request still becomes `"Completed"`, and that item's
increment is silently skipped: every material's stock change is exactly
what it would be with all items of that dangling name removed. -/
theorem receive_unmatched_name_skipped (db : DB) (request_id : Nat)
    (it : LineItemRow) (hmem : it ∈ get_request_line_items db request_id)
    (hnomatch : ∀ m ∈ db.materials, m.name ≠ it.material_name) :
    (receive_material_request_stock db request_id).2 = Except.ok ()
    ∧ (receive_material_request_stock db request_id).1.requests
        = db.requests.map (fun r =>
            if r.request_id == request_id then
              { r with status := "Completed" }
            else r)
    ∧ (receive_material_request_stock db request_id).1.materials
        = db.materials.map (fun m =>
            { m with stock := m.stock +
                (((get_request_line_items db request_id).filter
                    (fun li => li.material_name == m.name
                      && li.material_name != it.material_name)).map
                  (fun li => li.quantity_needed)).sum }) := by
  have hne : get_request_line_items db request_id ≠ [] :=
    List.ne_nil_of_mem hmem
  have hrw : receive_material_request_stock db request_id
      = ({ db with
            materials := applyLineItems
              (get_request_line_items db request_id) db.materials
            requests := db.requests.map (fun r =>
              if r.request_id == request_id then
                { r with status := "Completed" }
              else r) },
          Except.ok ()) := by
    unfold receive_material_request_stock
    rw [if_neg (by simpa [List.isEmpty_iff] using hne)]
  refine ⟨by rw [hrw], by rw [hrw], ?_⟩
  rw [hrw]
  rw [applyLineItems_eq]
  refine List.map_congr_left ?_
  intro m hm
  have hfil : (get_request_line_items db request_id).filter
      (fun li => li.material_name == m.name)
      = (get_request_line_items db request_id).filter
          (fun li => li.material_name == m.name
            && li.material_name != it.material_name) := by
    refine List.filter_congr ?_
    intro li _
    by_cases hl : li.material_name == m.name
    · have : li.material_name ≠ it.material_name := by
        have := hnomatch m hm
        simp only [beq_iff_eq] at hl
        rw [hl]
        exact this
      simp [hl, this]
    · simp [hl]
  rw [hfil]

/-- Witness for C5: in a store whose request 1 orders 5 of the since-renamed
material `"Ghost"` and 3 of `"B"`, receipt succeeds, `"B"` gains exactly 3,
no stock changes for `"Ghost"`, and the request completes. -/
theorem receive_unmatched_name_skipped_witness :
    ({ request_id := 1, material_name := "Ghost", quantity_needed := 5,
       unit_of_measure := "pcs", cost := 10 } : LineItemRow)
      ∈ get_request_line_items
          { dbRecv with line_items :=
              [{ request_id := 1, material_name := "Ghost",
                 quantity_needed := 5, unit_of_measure := "pcs",
                 cost := 10 },
               { request_id := 1, material_name := "B",
                 quantity_needed := 3, unit_of_measure := "pcs",
                 cost := 9 }] } 1
    ∧ (receive_material_request_stock
        { dbRecv with line_items :=
            [{ request_id := 1, material_name := "Ghost",
               quantity_needed := 5, unit_of_measure := "pcs", cost := 10 },
             { request_id := 1, material_name := "B", quantity_needed := 3,
               unit_of_measure := "pcs", cost := 9 }] } 1).2 = Except.ok ()
    ∧ ((receive_material_request_stock
        { dbRecv with line_items :=
            [{ request_id := 1, material_name := "Ghost",
               quantity_needed := 5, unit_of_measure := "pcs", cost := 10 },
             { request_id := 1, material_name := "B", quantity_needed := 3,
               unit_of_measure := "pcs", cost := 9 }] } 1).1.materials.map
          (fun m => (m.name, m.stock)) = [("A", 10), ("B", 23)])
    ∧ ((receive_material_request_stock
        { dbRecv with line_items :=
            [{ request_id := 1, material_name := "Ghost",
               quantity_needed := 5, unit_of_measure := "pcs", cost := 10 },
             { request_id := 1, material_name := "B", quantity_needed := 3,
               unit_of_measure := "pcs", cost := 9 }] } 1).1.requests.map
          (fun r => r.status) = ["Completed"]) := by
  have h := receive_unmatched_name_skipped
    { dbRecv with line_items :=
        [{ request_id := 1, material_name := "Ghost", quantity_needed := 5,
           unit_of_measure := "pcs", cost := 10 },
         { request_id := 1, material_name := "B", quantity_needed := 3,
           unit_of_measure := "pcs", cost := 9 }] } 1
    { request_id := 1, material_name := "Ghost", quantity_needed := 5,
      unit_of_measure := "pcs", cost := 10 }
    (by decide) (by decide)
  refine ⟨by decide, h.1, ?_, ?_⟩
  · rw [h.2.2]; decide
  · rw [h.2.1]; decide

/-- C6: deleting a material that some BOM row references fails with the
referential-integrity error and leaves the whole store (the material, its
stock, price and every other field) unchanged; deleting a material no BOM
row references succeeds and removes exactly that material's row. -/
theorem delete_material_guard (db : DB) (material_id : Nat) :
    ((∃ m ∈ db.materials, m.material_id = material_id) →
      (∃ b ∈ db.bom, b.material_id = material_id) →
      delete_material db material_id
        = (db, Except.error "FOREIGN KEY constraint failed"))
    ∧ ((∀ b ∈ db.bom, b.material_id ≠ material_id) →
        delete_material db material_id
          = ({ db with
                materials := db.materials.filter
                  (fun m => !(m.material_id == material_id)) },
             Except.ok ())
        ∧ (∀ m ∈ db.materials, m.material_id ≠ material_id →
            m ∈ (delete_material db material_id).1.materials)
        ∧ (∀ m ∈ (delete_material db material_id).1.materials,
            m ∈ db.materials ∧ m.material_id ≠ material_id)) := by
  constructor
  · intro hmat hbom
    unfold delete_material
    rw [if_pos]
    rw [Bool.and_eq_true, List.any_eq_true, List.any_eq_true]
    constructor
    · obtain ⟨m, hm, hid⟩ := hmat
      exact ⟨m, hm, by simpa using hid⟩
    · obtain ⟨b, hb, hid⟩ := hbom
      exact ⟨b, hb, by simpa using hid⟩
  · intro hnobom
    have hcond : ¬(((db.materials.any
          (fun m => m.material_id == material_id))
        && (db.bom.any (fun b => b.material_id == material_id)))
        = true) := by
      simp only [Bool.and_eq_true, List.any_eq_true, beq_iff_eq, not_and]
      rintro - ⟨b, hb, hid⟩
      exact hnobom b hb hid
    have hdel : delete_material db material_id
        = ({ db with
              materials := db.materials.filter
                (fun m => !(m.material_id == material_id)) },
           Except.ok ()) := by
      unfold delete_material
      rw [if_neg hcond]
    refine ⟨hdel, ?_, ?_⟩
    · intro m hm hid
      rw [hdel]
      exact List.mem_filter.mpr ⟨hm, by simpa using hid⟩
    · intro m hm
      rw [hdel] at hm
      have := List.mem_filter.mp hm
      exact ⟨this.1, by simpa using this.2⟩

/-- Witness for C6: in the `"Shoe-A"` store, deleting material 1
(referenced by the BOM) fails and changes nothing, while deleting it after
the BOM rows are gone succeeds and removes exactly its row. -/
theorem delete_material_guard_witness :
    delete_material dbShoe 1
      = (dbShoe, Except.error "FOREIGN KEY constraint failed")
    ∧ delete_material { dbShoe with bom := [] } 1
        = ({ dbShoe with bom := [], materials := [] }, Except.ok ()) := by
  have h1 := (delete_material_guard dbShoe 1).1
    ⟨matLeather, by decide, by decide⟩
    ⟨dbShoe.bom.head (by decide), by decide, by decide⟩
  have hnob : ∀ b ∈ ({ dbShoe with bom := ([] : List BomRow) } : DB).bom,
      b.material_id ≠ 1 := by
    intro b hb
    simp at hb
  have h2 := ((delete_material_guard { dbShoe with bom := [] } 1).2 hnob).1
  refine ⟨h1, ?_⟩
  rw [h2]
  rfl

/-- One row of the query in `get_full_bom` (`database.py`): the join of
`bom` with `materials` projecting product name, material name, quantity per
unit and unit of measure.  (The query's `ORDER BY` affects only the
iteration order of the report loop, which the accumulated totals do not
depend on; the rows are modelled in table order.) -/
structure FullBomRow where
  product_name : String
  material_name : String
  quantity_per_unit : Int
  unit_of_measure : String
deriving DecidableEq, Repr

/-- `get_full_bom` (`database.py`): every BOM row joined with its
material. -/
def get_full_bom (db : DB) : List FullBomRow :=
  db.bom.filterMap (fun b =>
    (db.materials.find? (fun m => m.material_id == b.material_id)).map
      (fun m =>
        { product_name := b.product_id
          material_name := m.name
          quantity_per_unit := b.quantity_per_unit
          unit_of_measure := m.unit_of_measure }))

/-- `get_sales_history(is_historical_csv=False)` (`database.py`): only the
current (manually entered) sales rows. -/
def currentSalesRows (db : DB) : List SalesRow :=
  db.sales.filter (fun s => !s.is_historical_csv)

/-- The period restriction in `generate_consumption_report`
(`admin_dashboard.py`): current sales rows of the chosen year and month. -/
def periodSalesRows (db : DB) (year month : Int) : List SalesRow :=
  (currentSalesRows db).filter (fun s => s.year == year && s.month == month)

/-- The distinct group keys of a pandas `groupby`: first occurrences kept,
later duplicates dropped. -/
def dedupKeys : List String → List String
  | [] => []
  | x :: rest => x :: (dedupKeys rest).filter (fun y => y != x)

/-- `month_sales.groupby("product_name")["quantity"].sum()` in
`generate_consumption_report`: one entry per distinct product name with the
summed quantity.  (pandas sorts the group keys; the key order affects only
the iteration order of the consumption loop, not the accumulated totals.) -/
def groupProductSales (sales : List SalesRow) : List (String × Int) :=
  (dedupKeys (sales.map (fun s => s.product_name))).map
    (fun p => (p, ((sales.filter (fun s => s.product_name == p)).map
        (fun s => s.quantity)).sum))

/-- The dictionary key built in `generate_consumption_report`:
`f"{mat_name} ({unit})"`. -/
def consumptionKey (b : FullBomRow) : String :=
  b.material_name ++ " (" ++ b.unit_of_measure ++ ")"

/-- The Python dictionary update in the report loop: if the key is absent
append it with the value, otherwise add the value to its entry. -/
def dictIncr : List (String × Int) → String → Int → List (String × Int)
  | [], key, v => [(key, v)]
  | kv :: rest, key, v =>
      if kv.1 == key then (kv.1, kv.2 + v) :: rest
      else kv :: dictIncr rest key v

/-- Lookup in the association-list model of the Python dictionary. -/
def lookupVal : List (String × Int) → String → Option Int
  | [], _ => none
  | kv :: rest, key => if kv.1 == key then some kv.2 else lookupVal rest key

/-- The nested consumption loop of `generate_consumption_report`: for every
(product, quantity sold) group, for every full-BOM row of that product, add
`quantity_per_unit * quantity_sold` to the entry keyed by material and
unit. -/
def consumptionLoop (bom : List FullBomRow)
    (product_sales : List (String × Int)) : List (String × Int) :=
  product_sales.foldl
    (fun acc pq =>
      (bom.filter (fun b => b.product_name == pq.1)).foldl
        (fun acc2 b =>
          dictIncr acc2 (consumptionKey b) (b.quantity_per_unit * pq.2))
        acc)
    []

/-- The possible outcomes of `generate_consumption_report`
(`admin_dashboard.py`): each early return shows an informational or warning
message box and returns normally; only the last branch carries the
aggregated table.  No branch raises or writes to the store. -/
inductive Report where
  | noCurrentSales
  | noSalesForPeriod
  | bomNotDefined
  | noBomMatches
  | table (consumption : List (String × Int))
deriving DecidableEq, Repr

/-- `generate_consumption_report` (`admin_dashboard.py`): read-only
aggregation of the current sales of (year, month) against the full BOM.
The first component of the result is the store after the call — the
function only reads, so it is returned as received. -/
def generate_consumption_report (db : DB) (year month : Int) :
    DB × Report :=
  if (currentSalesRows db).isEmpty then
    (db, Report.noCurrentSales)
  else if (periodSalesRows db year month).isEmpty then
    (db, Report.noSalesForPeriod)
  else if (get_full_bom db).isEmpty then
    (db, Report.bomNotDefined)
  else if (consumptionLoop (get_full_bom db)
      (groupProductSales (periodSalesRows db year month))).isEmpty then
    (db, Report.noBomMatches)
  else
    (db, Report.table (consumptionLoop (get_full_bom db)
      (groupProductSales (periodSalesRows db year month))))

/-- The multiset of (key, contribution) pairs the report loop feeds into
the dictionary: one pair per (product group, matching full-BOM row). -/
def contribsOf (db : DB) (year month : Int) : List (String × Int) :=
  (groupProductSales (periodSalesRows db year month)).flatMap
    (fun pq =>
      ((get_full_bom db).filter (fun b => b.product_name == pq.1)).map
        (fun b => (consumptionKey b, b.quantity_per_unit * pq.2)))

lemma lookupVal_dictIncr (key : String) (v : Int) :
    ∀ (d : List (String × Int)) (k : String),
      lookupVal (dictIncr d key v) k =
        if k = key then some ((lookupVal d key).getD 0 + v)
        else lookupVal d k := by
  intro d
  induction d with
  | nil =>
      intro k
      by_cases h : k = key
      · subst h
        simp [dictIncr, lookupVal]
      · simp [dictIncr, lookupVal, h,
          beq_eq_false_iff_ne.mpr (fun e => h e.symm)]
  | cons kv rest ih =>
      intro k
      by_cases hkv : kv.1 = key
      · rw [show dictIncr (kv :: rest) key v = (kv.1, kv.2 + v) :: rest by
          rw [dictIncr, if_pos (beq_iff_eq.mpr hkv)]]
        by_cases h : k = key
        · subst h
          simp [lookupVal, hkv]
        · have hk : ¬(kv.1 = k) := fun e => h (e ▸ hkv)
          simp [lookupVal, beq_eq_false_iff_ne.mpr hk, h]
      · rw [show dictIncr (kv :: rest) key v = kv :: dictIncr rest key v by
          rw [dictIncr, if_neg (by simpa using hkv)]]
        by_cases h : k = key
        · subst h
          simp [lookupVal, beq_eq_false_iff_ne.mpr hkv, ih]
        · by_cases hk : kv.1 = k
          · simp [lookupVal, hk, h]
          · simp [lookupVal, beq_eq_false_iff_ne.mpr hk, ih, h]

lemma lookupVal_foldl_dictIncr :
    ∀ (contribs : List (String × Int)) (d : List (String × Int))
      (k : String),
      lookupVal
          (contribs.foldl (fun acc kv => dictIncr acc kv.1 kv.2) d) k =
        if contribs.any (fun kv => kv.1 == k) then
          some ((lookupVal d k).getD 0 +
            ((contribs.filter (fun kv => kv.1 == k)).map
              (fun kv => kv.2)).sum)
        else lookupVal d k := by
  intro contribs
  induction contribs with
  | nil => intro d k; simp
  | cons c rest ih =>
      intro d k
      rw [List.foldl_cons, ih]
      by_cases hc : c.1 = k
      · have hck : (c.1 == k) = true := beq_iff_eq.mpr hc
        have hdi : lookupVal (dictIncr d c.1 c.2) k
            = some ((lookupVal d k).getD 0 + c.2) := by
          rw [lookupVal_dictIncr, if_pos hc.symm, hc]
        by_cases hrest : rest.any (fun kv => kv.1 == k)
        · rw [if_pos hrest, if_pos (by simp [List.any_cons, hrest]),
            hdi, List.filter_cons, if_pos hck]
          simp only [List.map_cons, List.sum_cons, Option.getD_some]
          rw [Int.add_assoc]
        · have hfil : rest.filter (fun kv => kv.1 == k) = [] := by
            refine List.filter_eq_nil_iff.mpr ?_
            intro kv hkv
            intro hcontra
            exact hrest (List.any_eq_true.mpr ⟨kv, hkv, hcontra⟩)
          rw [if_neg hrest, if_pos (by simp [List.any_cons, hck]),
            hdi, List.filter_cons, if_pos hck, hfil]
          simp
      · have hck : (c.1 == k) = false := beq_eq_false_iff_ne.mpr hc
        have hdi : lookupVal (dictIncr d c.1 c.2) k = lookupVal d k := by
          rw [lookupVal_dictIncr, if_neg (fun e => hc e.symm)]
        rw [List.any_cons, List.filter_cons, hck, hdi]
        simp only [Bool.false_or, if_neg (by simp : ¬(false = true))]

lemma consumptionLoop_foldl (bom : List FullBomRow) :
    ∀ (product_sales : List (String × Int)) (d : List (String × Int)),
      product_sales.foldl
        (fun acc pq =>
          (bom.filter (fun b => b.product_name == pq.1)).foldl
            (fun acc2 b =>
              dictIncr acc2 (consumptionKey b)
                (b.quantity_per_unit * pq.2))
            acc)
        d
      = (product_sales.flatMap (fun pq =>
          (bom.filter (fun b => b.product_name == pq.1)).map
            (fun b => (consumptionKey b, b.quantity_per_unit * pq.2)))).foldl
          (fun acc kv => dictIncr acc kv.1 kv.2) d := by
  intro product_sales
  induction product_sales with
  | nil => intro d; simp
  | cons pq rest ih =>
      intro d
      rw [List.foldl_cons, ih, List.flatMap_cons, List.foldl_append,
        List.foldl_map]

lemma lookupVal_map_keys (f : String → Int) :
    ∀ (names : List String) (p : String),
      lookupVal (names.map (fun q => (q, f q))) p =
        if p ∈ names then some (f p) else none := by
  intro names
  induction names with
  | nil => intro p; simp [lookupVal]
  | cons q rest ih =>
      intro p
      by_cases h : q = p
      · subst h
        simp [lookupVal]
      · rw [List.map_cons, lookupVal, if_neg (by simpa using h), ih]
        simp [Ne.symm h]

lemma mem_dedupKeys : ∀ (l : List String) (p : String),
    p ∈ dedupKeys l ↔ p ∈ l := by
  intro l
  induction l with
  | nil => intro p; simp [dedupKeys]
  | cons x rest ih =>
      intro p
      by_cases h : p = x
      · subst h
        simp [dedupKeys]
      · simp only [dedupKeys, List.mem_cons, List.mem_filter, ih,
          bne_iff_ne, ne_eq]
        constructor
        · rintro (rfl | ⟨hp, -⟩)
          · exact Or.inl rfl
          · exact Or.inr hp
        · rintro (rfl | hp)
          · exact Or.inl rfl
          · exact Or.inr ⟨hp, h⟩

lemma lookupVal_groupProductSales (sales : List SalesRow) (p : String) :
    lookupVal (groupProductSales sales) p =
      if sales.any (fun s => s.product_name == p) then
        some (((sales.filter (fun s => s.product_name == p)).map
          (fun s => s.quantity)).sum)
      else none := by
  unfold groupProductSales
  rw [lookupVal_map_keys]
  have hmem : p ∈ dedupKeys (sales.map (fun s => s.product_name))
      ↔ sales.any (fun s => s.product_name == p) = true := by
    rw [mem_dedupKeys, List.mem_map, List.any_eq_true]
    constructor
    · rintro ⟨s, hs, rfl⟩
      exact ⟨s, hs, by simp⟩
    · rintro ⟨s, hs, hp⟩
      exact ⟨s, hs, by simpa using hp⟩
  by_cases h : sales.any (fun s => s.product_name == p) = true
  · rw [if_pos (hmem.mpr h), if_pos h]
  · rw [if_neg (fun hin => h (hmem.mp hin)), if_neg h]

/-- C7: the consumption report is a pure read — the store comes back
unchanged and historical sales rows never influence the outcome; per
product it sums the current sales of the period; per (material, unit) key
it totals `quantity_per_unit * quantity_sold` over every matching
(product group, BOM row) pair; and every no-data situation (no current
sales at all, none in the period, no BOM, no matching BOM rows) yields an
informational `Report` value rather than an error. -/
theorem generate_consumption_report_correct (db : DB) (year month : Int) :
    (generate_consumption_report db year month).1 = db
    ∧ (∀ s : SalesRow, s.is_historical_csv = true →
        (generate_consumption_report { db with sales := s :: db.sales }
            year month).2
          = (generate_consumption_report db year month).2)
    ∧ (∀ p : String,
        lookupVal (groupProductSales (periodSalesRows db year month)) p
          = if (periodSalesRows db year month).any
                (fun s => s.product_name == p) then
              some ((((periodSalesRows db year month).filter
                  (fun s => s.product_name == p)).map
                (fun s => s.quantity)).sum)
            else none)
    ∧ (∀ key : String,
        lookupVal (consumptionLoop (get_full_bom db)
            (groupProductSales (periodSalesRows db year month))) key
          = if (contribsOf db year month).any (fun kv => kv.1 == key) then
              some ((((contribsOf db year month).filter
                  (fun kv => kv.1 == key)).map (fun kv => kv.2)).sum)
            else none)
    ∧ (currentSalesRows db = [] →
        (generate_consumption_report db year month).2
          = Report.noCurrentSales)
    ∧ (currentSalesRows db ≠ [] → periodSalesRows db year month = [] →
        (generate_consumption_report db year month).2
          = Report.noSalesForPeriod)
    ∧ (currentSalesRows db ≠ [] → periodSalesRows db year month ≠ [] →
        get_full_bom db = [] →
        (generate_consumption_report db year month).2
          = Report.bomNotDefined)
    ∧ (currentSalesRows db ≠ [] → periodSalesRows db year month ≠ [] →
        get_full_bom db ≠ [] →
        consumptionLoop (get_full_bom db)
            (groupProductSales (periodSalesRows db year month)) = [] →
        (generate_consumption_report db year month).2
          = Report.noBomMatches)
    ∧ (currentSalesRows db ≠ [] → periodSalesRows db year month ≠ [] →
        get_full_bom db ≠ [] →
        consumptionLoop (get_full_bom db)
            (groupProductSales (periodSalesRows db year month)) ≠ [] →
        (generate_consumption_report db year month).2
          = Report.table (consumptionLoop (get_full_bom db)
              (groupProductSales (periodSalesRows db year month)))) := by
  refine ⟨?_, ?_, ?_, ?_, ?_, ?_, ?_, ?_, ?_⟩
  · unfold generate_consumption_report
    repeat' split
    all_goals rfl
  · intro s hs
    have hcs : currentSalesRows { db with sales := s :: db.sales }
        = currentSalesRows db := by
      simp [currentSalesRows, List.filter_cons, hs]
    have hps : periodSalesRows { db with sales := s :: db.sales } year month
        = periodSalesRows db year month := by
      unfold periodSalesRows
      rw [hcs]
    have hfb : get_full_bom { db with sales := s :: db.sales }
        = get_full_bom db := rfl
    unfold generate_consumption_report
    rw [hcs, hps, hfb]
    simp only [apply_ite Prod.snd]
  · intro p
    exact lookupVal_groupProductSales (periodSalesRows db year month) p
  · intro key
    unfold consumptionLoop
    rw [consumptionLoop_foldl, lookupVal_foldl_dictIncr]
    unfold contribsOf
    by_cases h : ((groupProductSales (periodSalesRows db year month)).flatMap
        (fun pq =>
          ((get_full_bom db).filter (fun b => b.product_name == pq.1)).map
            (fun b =>
              (consumptionKey b, b.quantity_per_unit * pq.2)))).any
        (fun kv => kv.1 == key) = true
    · rw [if_pos h, if_pos h]
      simp [lookupVal]
    · rw [if_neg h, if_neg h]
      rfl
  · intro h
    unfold generate_consumption_report
    rw [if_pos (List.isEmpty_iff.mpr h)]
  · intro h hp
    unfold generate_consumption_report
    rw [if_neg (by simpa [List.isEmpty_iff] using h),
      if_pos (List.isEmpty_iff.mpr hp)]
  · intro h hp hb
    unfold generate_consumption_report
    rw [if_neg (by simpa [List.isEmpty_iff] using h),
      if_neg (by simpa [List.isEmpty_iff] using hp),
      if_pos (List.isEmpty_iff.mpr hb)]
  · intro h hp hb hc
    unfold generate_consumption_report
    rw [if_neg (by simpa [List.isEmpty_iff] using h),
      if_neg (by simpa [List.isEmpty_iff] using hp),
      if_neg (by simpa [List.isEmpty_iff] using hb),
      if_pos (List.isEmpty_iff.mpr hc)]
  · intro h hp hb hc
    unfold generate_consumption_report
    rw [if_neg (by simpa [List.isEmpty_iff] using h),
      if_neg (by simpa [List.isEmpty_iff] using hp),
      if_neg (by simpa [List.isEmpty_iff] using hb),
      if_neg (by simpa [List.isEmpty_iff] using hc)]

/-- Store for the report witness: the `"Shoe-A"` BOM plus one current sale
of 4 units in 2025-01 and one historical row that must not count. -/
def dbReport : DB :=
  { dbShoe with sales :=
      [{ product_name := "Shoe-A", year := 2025, month := 1, quantity := 4,
         is_historical_csv := false },
       { product_name := "Shoe-A", year := 2025, month := 1, quantity := 99,
         is_historical_csv := true }] }

/-- Witness for C7: on `dbReport` the report for 2025-01 is the table
`Leather (pcs) : 8` (4 sold x 2 per unit, the historical 99 ignored), the
store is returned unchanged, and on the period 2025-02 with no sales the
informational no-sales result comes back. -/
theorem generate_consumption_report_correct_witness :
    (generate_consumption_report dbReport 2025 1).1 = dbReport
    ∧ (generate_consumption_report dbReport 2025 1).2
        = Report.table [("Leather (pcs)", 8)]
    ∧ lookupVal (consumptionLoop (get_full_bom dbReport)
        (groupProductSales (periodSalesRows dbReport 2025 1)))
        "Leather (pcs)" = some 8
    ∧ (generate_consumption_report dbReport 2025 2).2
        = Report.noSalesForPeriod := by
  have h := generate_consumption_report_correct dbReport 2025 1
  obtain ⟨h1, -, -, -, -, -, -, -, htab⟩ := h
  have h2 := generate_consumption_report_correct dbReport 2025 2
  have hloop : consumptionLoop (get_full_bom dbReport)
      (groupProductSales (periodSalesRows dbReport 2025 1))
      = [("Leather (pcs)", 8)] := by
    decide
  refine ⟨h1, ?_, ?_, ?_⟩
  · rw [htab (by decide) (by decide) (by decide) (by rw [hloop]; decide),
      hloop]
  · rw [hloop]
    decide
  · exact h2.2.2.2.2.2.1 (by decide) (by decide)

/-- C8: the historical-sales re-import transaction performs a full replace
of exactly the historical subset — afterwards the rows flagged historical
are precisely the freshly imported ones, the current rows are byte-for-byte
unchanged, every other table is untouched — and a failure inside the
transaction rolls the whole replacement back, returning the store as it
was with the error. -/
theorem importSalesTransaction_replaces_historical (db : DB)
    (recs : List (String × Int × Int × Int)) :
    (importSalesTransaction false db recs).2 = Except.ok ()
    ∧ (importSalesTransaction false db recs).1.sales.filter
        (fun s => s.is_historical_csv)
      = histRowsOf recs
    ∧ (importSalesTransaction false db recs).1.sales.filter
        (fun s => !s.is_historical_csv)
      = db.sales.filter (fun s => !s.is_historical_csv)
    ∧ (importSalesTransaction false db recs).1.materials = db.materials
    ∧ (importSalesTransaction false db recs).1.bom = db.bom
    ∧ (importSalesTransaction false db recs).1.requests = db.requests
    ∧ (importSalesTransaction false db recs).1.line_items = db.line_items
    ∧ importSalesTransaction true db recs
        = (db, Except.error "StorageError") := by
  have hrw : importSalesTransaction false db recs
      = ({ db with
            sales := db.sales.filter (fun s => !s.is_historical_csv)
              ++ histRowsOf recs },
          Except.ok ()) := rfl
  have hold : (db.sales.filter (fun s => !s.is_historical_csv)).filter
      (fun s => s.is_historical_csv) = [] := by
    refine List.filter_eq_nil_iff.mpr ?_
    intro s hs
    have := (List.mem_filter.mp hs).2
    simp only [Bool.not_eq_eq_eq_not, Bool.not_true] at this ⊢
    simp [this]
  have hold2 : (db.sales.filter (fun s => !s.is_historical_csv)).filter
      (fun s => !s.is_historical_csv)
      = db.sales.filter (fun s => !s.is_historical_csv) := by
    refine List.filter_eq_self.mpr ?_
    intro s hs
    exact (List.mem_filter.mp hs).2
  have hnew : (histRowsOf recs).filter (fun s => s.is_historical_csv)
      = histRowsOf recs := by
    refine List.filter_eq_self.mpr ?_
    intro s hs
    obtain ⟨r, -, rfl⟩ := List.mem_map.mp hs
    rfl
  have hnew2 : (histRowsOf recs).filter
      (fun s => !s.is_historical_csv) = [] := by
    refine List.filter_eq_nil_iff.mpr ?_
    intro s hs
    obtain ⟨r, -, rfl⟩ := List.mem_map.mp hs
    simp
  refine ⟨by rw [hrw], ?_, ?_, by rw [hrw], by rw [hrw], by rw [hrw],
    by rw [hrw], rfl⟩
  · rw [hrw]
    show (db.sales.filter (fun s => !s.is_historical_csv)
        ++ histRowsOf recs).filter (fun s => s.is_historical_csv)
      = histRowsOf recs
    rw [List.filter_append, hold, hnew, List.nil_append]
  · rw [hrw]
    show (db.sales.filter (fun s => !s.is_historical_csv)
        ++ histRowsOf recs).filter (fun s => !s.is_historical_csv)
      = db.sales.filter (fun s => !s.is_historical_csv)
    rw [List.filter_append, hold2, hnew2, List.append_nil]

/-- The same store with every request's status overwritten by one string
(used to state that the stock receipt never reads the status). -/
def setAllStatuses (db : DB) (status : String) : DB :=
  { db with
      requests := db.requests.map (fun r => { r with status := status }) }

/-- C9: `receive_material_request_stock` checks only that line items exist
and never reads the request's status — it succeeds whatever the status is
(the same store with every status overwritten by an arbitrary string still
succeeds) — and running it twice on the same request applies every stock
increment twice, leaving each referenced material raised by two times the
sum of its matching `quantity_needed`. -/
theorem receive_ignores_status_and_doubles (db : DB) (request_id : Nat)
    (h : get_request_line_items db request_id ≠ []) :
    (receive_material_request_stock db request_id).2 = Except.ok ()
    ∧ (∀ status : String,
        (receive_material_request_stock (setAllStatuses db status)
          request_id).2 = Except.ok ())
    ∧ (receive_material_request_stock
        (receive_material_request_stock db request_id).1 request_id).2
        = Except.ok ()
    ∧ (receive_material_request_stock
        (receive_material_request_stock db request_id).1
          request_id).1.materials
        = db.materials.map (fun m =>
            { m with stock := m.stock +
                2 * (((get_request_line_items db request_id).filter
                    (fun li => li.material_name == m.name)).map
                  (fun li => li.quantity_needed)).sum }) := by
  have hrw := receive_success_eq db request_id h
  have hitems1 : get_request_line_items
      (receive_material_request_stock db request_id).1 request_id
      = get_request_line_items db request_id := by
    unfold get_request_line_items
    rw [hrw]
  have h1ne : get_request_line_items
      (receive_material_request_stock db request_id).1 request_id ≠ [] := by
    rw [hitems1]; exact h
  have hrw2 := receive_success_eq
    (receive_material_request_stock db request_id).1 request_id h1ne
  refine ⟨by rw [hrw], ?_, by rw [hrw2], ?_⟩
  · intro status
    have heq : get_request_line_items (setAllStatuses db status) request_id
        = get_request_line_items db request_id := rfl
    have hne2 : get_request_line_items (setAllStatuses db status)
        request_id ≠ [] := by
      rw [heq]; exact h
    rw [receive_success_eq (setAllStatuses db status) request_id hne2]
  · rw [hrw2]
    show applyLineItems _ _ = _
    rw [hitems1]
    have hmats1 : ((receive_material_request_stock db
        request_id).1).materials
        = applyLineItems (get_request_line_items db request_id)
            db.materials := by
      rw [hrw]
    rw [hmats1, applyLineItems_eq, applyLineItems_eq, List.map_map]
    refine List.map_congr_left ?_
    intro m _
    simp only [Function.comp_apply]
    cases m
    simp only [Material.mk.injEq, and_true, true_and]
    ring

/-- Witness for C9: on `dbRecv`, a second receipt of request 1 still
succeeds and leaves `"A"` at 10 + 2*5 = 20 and `"B"` at 20 + 2*3 = 26,
whatever the status (here also with every status forced to
`"Rejected"`). -/
theorem receive_ignores_status_and_doubles_witness :
    get_request_line_items dbRecv 1 ≠ []
    ∧ (receive_material_request_stock (setAllStatuses dbRecv "Rejected")
        1).2 = Except.ok ()
    ∧ (receive_material_request_stock
        (receive_material_request_stock dbRecv 1).1 1).2 = Except.ok ()
    ∧ ((receive_material_request_stock
        (receive_material_request_stock dbRecv 1).1 1).1.materials.map
          (fun m => (m.name, m.stock)) = [("A", 20), ("B", 26)]) := by
  have h := receive_ignores_status_and_doubles dbRecv 1 (by decide)
  refine ⟨by decide, h.2.1 "Rejected", h.2.2.1, ?_⟩
  rw [h.2.2.2]
  decide

/-- C10: when every supplied line item has non-positive `quantity_needed`,
`submit_material_request` still commits a `"Pending"` header under the
fresh id and returns that id while persisting zero line items — and the
stock-receipt operation on the stored request can only fail with the
"No line items" error. -/
theorem submit_material_request_all_nonpositive (db : DB)
    (employee_id : Nat) (employee_name product_name : String)
    (production_quantity : Int) (total_cost : ℚ)
    (line_items : List LineItemInput) (now : String)
    (hall : ∀ item ∈ line_items, item.quantity_needed ≤ 0)
    (hfreshL : ∀ li ∈ db.line_items, li.request_id ≠ db.nextRequestId) :
    (submit_material_request false db employee_id employee_name product_name
        production_quantity total_cost line_items now).2
      = Except.ok db.nextRequestId
    ∧ (submit_material_request false db employee_id employee_name
        product_name production_quantity total_cost line_items
        now).1.line_items = db.line_items
    ∧ (submit_material_request false db employee_id employee_name
        product_name production_quantity total_cost line_items
        now).1.requests
      = db.requests ++
          [{ request_id := db.nextRequestId
             employee_id := employee_id
             employee_name := employee_name
             product_name := product_name
             production_quantity := production_quantity
             total_cost := total_cost
             status := "Pending"
             request_date := now }]
    ∧ (receive_material_request_stock
        (submit_material_request false db employee_id employee_name
          product_name production_quantity total_cost line_items now).1
        db.nextRequestId).2
      = Except.error "No line items found for this request." := by
  have hfilter : line_items.filter
      (fun item => decide (item.quantity_needed > 0)) = [] := by
    refine List.filter_eq_nil_iff.mpr ?_
    intro item hitem
    simp only [decide_eq_true_eq, not_lt]
    exact hall item hitem
  have hsub : submit_material_request false db employee_id employee_name
      product_name production_quantity total_cost line_items now
      = ({ db with
            requests := db.requests ++
              [{ request_id := db.nextRequestId
                 employee_id := employee_id
                 employee_name := employee_name
                 product_name := product_name
                 production_quantity := production_quantity
                 total_cost := total_cost
                 status := "Pending"
                 request_date := now }]
            line_items := db.line_items
            nextRequestId := db.nextRequestId + 1 },
          Except.ok db.nextRequestId) := by
    unfold submit_material_request
    rw [if_neg (by simp), hfilter]
    simp
  have hitems : get_request_line_items
      (submit_material_request false db employee_id employee_name
        product_name production_quantity total_cost line_items now).1
      db.nextRequestId = [] := by
    unfold get_request_line_items
    rw [hsub]
    refine List.filter_eq_nil_iff.mpr ?_
    intro li hli
    simpa using hfreshL li hli
  refine ⟨by rw [hsub], by rw [hsub], by rw [hsub], ?_⟩
  unfold receive_material_request_stock
  rw [hitems]
  rfl

/-- Witness for C10: submitting against `dbShoe` a single zero-shortfall
line item stores a `"Pending"` header, no line items, and receipt of the
resulting request 1 fails with the "No line items" error. -/
theorem submit_material_request_all_nonpositive_witness :
    (∀ item ∈ [({ material_name := "Leather", quantity_needed := 0,
                  unit_of_measure := some "pcs",
                  cost := 0 } : LineItemInput)],
      item.quantity_needed ≤ 0)
    ∧ (submit_material_request false dbShoe 2 "employee" "Shoe-A" 3 0
        [{ material_name := "Leather", quantity_needed := 0,
           unit_of_measure := some "pcs", cost := 0 }]
        "2025-01-01T00:00:00").2 = Except.ok 1
    ∧ (submit_material_request false dbShoe 2 "employee" "Shoe-A" 3 0
        [{ material_name := "Leather", quantity_needed := 0,
           unit_of_measure := some "pcs", cost := 0 }]
        "2025-01-01T00:00:00").1.line_items = []
    ∧ (receive_material_request_stock
        (submit_material_request false dbShoe 2 "employee" "Shoe-A" 3 0
          [{ material_name := "Leather", quantity_needed := 0,
             unit_of_measure := some "pcs", cost := 0 }]
          "2025-01-01T00:00:00").1 1).2
      = Except.error "No line items found for this request." := by
  have h := submit_material_request_all_nonpositive dbShoe 2 "employee"
    "Shoe-A" 3 0
    [{ material_name := "Leather", quantity_needed := 0,
       unit_of_measure := some "pcs", cost := 0 }]
    "2025-01-01T00:00:00" (by decide) (by simp [dbShoe])
  refine ⟨by decide, h.1, ?_, h.2.2.2⟩
  rw [h.2.1]
  rfl
